import Mathlib

/-!
Verification of the tkLayout CMSSW geometry extractor (`src/src/Extractor.cc`)
against its natural-language specification.  The C++ code is shallowly
embedded: `double` becomes `ℝ`, `std::vector` becomes `List`, mutable
accumulation becomes explicit state passing, and `std::exit(1)` becomes an
`Except` error.  Each definition names the source function it embeds.
-/

namespace Extractor

/-- One row of the global material table (`MaterialRow`: tag, density,
radiation length `rlength`, interaction length `ilength`). -/
structure MaterialRow where
  tag : String
  density : ℝ
  rlength : ℝ
  ilength : ℝ

/-- An elementary material record (`Element`) as emitted by
`Extractor::analyseElements`. -/
structure Element where
  tag : String
  density : ℝ
  atomic_weight : ℝ
  atomic_number : ℤ

/-- `Extractor::Z` (Extractor.cc:2235-2241): derive an atomic number from a
radiation length `x0` and an atomic weight `A`.
`d = 4 - 4*(1 - 181*A/x0)`; if `d > 0` the result is
`floor((sqrt(d) - 2)/2 + 0.5)`, otherwise `-1`. -/
noncomputable def Z (x0 A : ℝ) : ℤ :=
  let d : ℝ := 4 - 4 * (1 - 181 * A / x0)
  if 0 < d then ⌊(Real.sqrt d - 2) / 2 + 0.5⌋ else -1

/-- `Extractor::analyseElements` (Extractor.cc:191-201): each material-table
row is copied into an `Element`, with atomic weight `(ilength/35)^3` and
atomic number `Z rlength atomic_weight`. -/
noncomputable def analyseElements (mattab : List MaterialRow) : List Element :=
  mattab.map fun r =>
    { tag := r.tag
      density := r.density
      atomic_weight := (r.ilength / 35) ^ 3
      atomic_number := Z r.rlength ((r.ilength / 35) ^ 3) }

/-- The atomic-number formula exactly as the spec sentence words it
(spec.md §4.3 Pass 5), kept separate from the source-translated `Z` so the
two can be compared. -/
noncomputable def specAtomicNumber (X0 A : ℝ) : ℤ :=
  let d : ℝ := 4 - 4 * (1 - 181 * A / X0)
  if 0 < d then ⌊(Real.sqrt d - 2) / 2 + 0.5⌋ else -1

/-- `ROOT::Math::XYZVector` as used by the extractor: a 3-D vector of
doubles, embedded over `ℝ`. -/
structure XYZVector where
  x : ℝ
  y : ℝ
  z : ℝ

instance : Add XYZVector := ⟨fun a b => ⟨a.x + b.x, a.y + b.y, a.z + b.z⟩⟩

instance : Sub XYZVector := ⟨fun a b => ⟨a.x - b.x, a.y - b.y, a.z - b.z⟩⟩

instance : SMul ℝ XYZVector := ⟨fun c v => ⟨c * v.x, c * v.y, c * v.z⟩⟩

/-- `XYZVector::R()`: the 3-D magnitude `sqrt(x^2+y^2+z^2)`. -/
noncomputable def vecR (p : XYZVector) : ℝ := Real.sqrt (p.x ^ 2 + p.y ^ 2 + p.z ^ 2)

/-- `XYZVector::SetZ(0.)`: projection onto the plane perpendicular to the
beam axis. -/
def setZ0 (p : XYZVector) : XYZVector := { p with z := 0 }

/-- One material element of a module (`MaterialObject::Element`, accessed
through `Module::getLocalElements`): its component name, element name,
distribution target id, and `quantityInGrams(module)` evaluated for the
module under decomposition. -/
structure MatElement where
  componentName : String
  elementName : String
  targetVolume : ℤ
  quantityInGrams : ℝ

/-- The module attributes consumed by `ModuleComplex`
(Extractor.cc:2263-2290 and 2297-2590): center, unit normal, the base
polygon's four vertices, the scalar dimensions, and the material element
list. -/
structure Module where
  center : XYZVector
  normal : XYZVector
  vertex0 : XYZVector
  vertex1 : XYZVector
  vertex2 : XYZVector
  vertex3 : XYZVector
  area : ℝ
  length : ℝ
  thickness : ℝ
  sensorThickness : ℝ
  dsDistance : ℝ
  frontEndHybridWidth : ℝ
  serviceHybridWidth : ℝ
  hybridThickness : ℝ
  supportPlateThickness : ℝ
  localElements : List MatElement

namespace ModuleComplex

/-- `modWidth = module.area()/module.length()` (Extractor.cc:2269). -/
noncomputable def modWidth (m : Module) : ℝ := m.area / m.length

/-- `expandedModWidth = modWidth + 2*serviceHybridWidth` (Extractor.cc:2283). -/
noncomputable def expandedModWidth (m : Module) : ℝ :=
  modWidth m + 2 * m.serviceHybridWidth

/-- `expandedModLength = modLength + 2*frontEndHybridWidth` (Extractor.cc:2284). -/
def expandedModLength (m : Module) : ℝ := m.length + 2 * m.frontEndHybridWidth

/-- `expandedModThickness = sensorDistance + 2*(supportPlateThickness + sensorThickness)`
(Extractor.cc:2285). -/
def expandedModThickness (m : Module) : ℝ :=
  m.dsDistance + 2 * (m.supportPlateThickness + m.sensorThickness)

/-- One decomposed sub-volume (`Volume` in Extractor.h; its constructor
arguments appear at Extractor.cc:2333-2370).  `dx`, `dy`, `dz` are the box
extents, `posx/posy/posz` the offset relative to the module, `mass` and
`materials` the accumulated material content. -/
structure Volume where
  name : String
  typeId : ℤ
  parent : String
  dx : ℝ
  dy : ℝ
  dz : ℝ
  posx : ℝ
  posy : ℝ
  posz : ℝ
  mass : ℝ
  materials : List (String × ℝ)

/-- The six structural sub-volumes built by `ModuleComplex::buildSubVolumes`
(the two sensor slots are never instantiated, Extractor.cc:2322-2324). -/
structure SubVols where
  front : Volume
  back : Volume
  left : Volume
  right : Volume
  between : Volume
  supportPlate : Volume

/-- Sub-volume geometry template of `ModuleComplex::buildSubVolumes`
(Extractor.cc:2326-2370): extents and offsets of the six sub-volumes. -/
noncomputable def mkSubVols (moduleId parentId : String) (m : Module) : SubVols :=
  { front :=
      { name := moduleId ++ "FSide", typeId := 3, parent := parentId
        dx := m.serviceHybridWidth, dy := m.length, dz := m.hybridThickness
        posx := (modWidth m + m.serviceHybridWidth) / 2, posy := 0, posz := 0
        mass := 0, materials := [] }
    back :=
      { name := moduleId ++ "BSide", typeId := 4, parent := parentId
        dx := m.serviceHybridWidth, dy := m.length, dz := m.hybridThickness
        posx := -((modWidth m + m.serviceHybridWidth) / 2), posy := 0, posz := 0
        mass := 0, materials := [] }
    left :=
      { name := moduleId ++ "LSide", typeId := 5, parent := parentId
        dx := modWidth m + 2 * m.serviceHybridWidth, dy := m.frontEndHybridWidth
        dz := m.hybridThickness
        posx := 0, posy := (m.length + m.frontEndHybridWidth) / 2, posz := 0
        mass := 0, materials := [] }
    right :=
      { name := moduleId ++ "RSide", typeId := 6, parent := parentId
        dx := modWidth m + 2 * m.serviceHybridWidth, dy := m.frontEndHybridWidth
        dz := m.hybridThickness
        posx := 0, posy := -((m.length + m.frontEndHybridWidth) / 2), posz := 0
        mass := 0, materials := [] }
    between :=
      { name := moduleId ++ "Between", typeId := 7, parent := parentId
        dx := modWidth m, dy := m.length, dz := m.hybridThickness
        posx := 0, posy := 0, posz := 0
        mass := 0, materials := [] }
    supportPlate :=
      { name := moduleId ++ "SupportPlate", typeId := 8, parent := parentId
        dx := expandedModWidth m, dy := expandedModLength m
        dz := m.supportPlateThickness
        posx := 0, posy := 0
        posz := -((m.dsDistance + m.supportPlateThickness) / 2 + m.sensorThickness)
        mass := 0, materials := [] } }

/-- `mx = 0.5*(basePoly.getVertex(2) + basePoly.getVertex(3)) - center`
(Extractor.cc:2401). -/
noncomputable def mx (m : Module) : XYZVector :=
  (0.5 : ℝ) • (m.vertex2 + m.vertex3) - m.center

/-- `my = 0.5*(basePoly.getVertex(1) + basePoly.getVertex(2)) - center`
(Extractor.cc:2402). -/
noncomputable def my (m : Module) : XYZVector :=
  (0.5 : ℝ) • (m.vertex1 + m.vertex2) - m.center

/-- The four hybrid-expanded vertices `v[0..3]` (Extractor.cc:2407-2410). -/
noncomputable def vExp (m : Module) : List XYZVector :=
  let kx : ℝ := expandedModWidth m / modWidth m
  let ky : ℝ := expandedModLength m / m.length
  [ m.center - kx • mx m - ky • my m
  , m.center - kx • mx m + ky • my m
  , m.center + kx • mx m + ky • my m
  , m.center + kx • mx m - ky • my m ]

/-- The top-surface corners `v_top[ip] = v[ip] + 0.5*expandedModThickness*normal`
(Extractor.cc:2417). -/
noncomputable def vTop (m : Module) : List XYZVector :=
  (vExp m).map fun v => v + (0.5 * expandedModThickness m) • m.normal

/-- The bottom-surface corners `v_bottom[ip] = v[ip] - 0.5*expandedModThickness*normal`
(Extractor.cc:2418). -/
noncomputable def vBottom (m : Module) : List XYZVector :=
  (vExp m).map fun v => v - (0.5 * expandedModThickness m) • m.normal

/-- Edge mid-points of a corner cycle: `(v[ip] + v[ip+1])/2` with `v[4] = v[0]`
(Extractor.cc:2445-2451). -/
noncomputable def midPoints : List XYZVector → List XYZVector
  | [a, b, c, d] => [(0.5 : ℝ) • (a + b), (0.5 : ℝ) • (b + c),
                     (0.5 : ℝ) • (c + d), (0.5 : ℝ) • (d + a)]
  | _ => []

/-- `*std::min_element(v.begin(), v.end())`; on an empty range the C++ call
is undefined, here it returns the junk value `0`. -/
noncomputable def listMin : List ℝ → ℝ
  | [] => 0
  | a :: t => t.foldl min a

/-- `*std::max_element(v.begin(), v.end())`; on an empty range the C++ call
is undefined, here it returns the junk value `0`. -/
noncomputable def listMax : List ℝ → ℝ
  | [] => 0
  | a :: t => t.foldl max a

/-- Processing of one corner point in the radius loop
(Extractor.cc:2456-2466 for the bottom surface, 2468-2478 for the top):
returns its contributions to `ratzminv` and `ratzmaxv` and its `rv` entry.
If the point is within tolerance of `zmin` its z is zeroed (`SetZ(0.)`)
*before* the `zmax` comparison, so the `zmax` test reads the mutated z. -/
noncomputable def processCorner (zmin zmax : ℝ) (p : XYZVector) :
    List ℝ × List ℝ × ℝ :=
  if |p.z - zmin| < 0.001 then
    ([vecR (setZ0 p)],
     if |(setZ0 p).z - zmax| < 0.001 then [vecR (setZ0 p)] else [],
     vecR (setZ0 p))
  else
    ([],
     if |p.z - zmax| < 0.001 then [vecR (setZ0 p)] else [],
     vecR (setZ0 p))

/-- Processing of one mid-point in the radius loop (Extractor.cc:2480-2494):
mid-points are tested against `zmin` only — they never contribute to
`ratzmaxv`. -/
noncomputable def processMid (zmin : ℝ) (p : XYZVector) : List ℝ × ℝ :=
  (if |p.z - zmin| < 0.001 then [vecR (setZ0 p)] else [], vecR (setZ0 p))

/-- The radius loop of `ModuleComplex::buildSubVolumes`
(Extractor.cc:2454-2495): for each `ip` process the bottom corner, the top
corner, the bottom mid-point and the top mid-point, in that order,
accumulating `(ratzminv, ratzmaxv, rv)`. -/
noncomputable def radiusLoop (zmin zmax : ℝ) :
    List XYZVector → List XYZVector → List XYZVector → List XYZVector →
    List ℝ × List ℝ × List ℝ
  | b :: bs, t :: ts, mb :: mbs, mt :: mts =>
      let cb := processCorner zmin zmax b
      let ct := processCorner zmin zmax t
      let pmb := processMid zmin mb
      let pmt := processMid zmin mt
      let rest := radiusLoop zmin zmax bs ts mbs mts
      ( cb.1 ++ ct.1 ++ pmb.1 ++ pmt.1 ++ rest.1
      , cb.2.1 ++ ct.2.1 ++ rest.2.1
      , [cb.2.2, ct.2.2, pmb.2, pmt.2] ++ rest.2.2 )
  | _, _, _, _ => ([], [], [])

/-- Interleaving of the per-corner pushes of the x/y/z candidate lists
(Extractor.cc:2425-2430): for each `ip`, the top surface's entry then the
bottom surface's. -/
noncomputable def interleave2 : List ℝ → List ℝ → List ℝ
  | a :: as, b :: bs => a :: b :: interleave2 as bs
  | _, _ => []

/-- The geometric envelope computed by `ModuleComplex::buildSubVolumes`
(Extractor.cc:2393-2500). -/
structure Envelope where
  xmin : ℝ
  xmax : ℝ
  ymin : ℝ
  ymax : ℝ
  zmin : ℝ
  zmax : ℝ
  rmin : ℝ
  rmax : ℝ
  rminatzmin : ℝ
  rmaxatzmax : ℝ

/-- Envelope computation of `ModuleComplex::buildSubVolumes`
(Extractor.cc:2393-2500): x/y/z extrema over the 8 corners, then the radius
loop over corners and mid-points. -/
noncomputable def buildEnvelope (m : Module) : Envelope :=
  let tops := vTop m
  let bottoms := vBottom m
  let xv := interleave2 (tops.map XYZVector.x) (bottoms.map XYZVector.x)
  let yv := interleave2 (tops.map XYZVector.y) (bottoms.map XYZVector.y)
  let zv := interleave2 (tops.map XYZVector.z) (bottoms.map XYZVector.z)
  let zmin := listMin zv
  let zmax := listMax zv
  let rl := radiusLoop zmin zmax bottoms tops (midPoints bottoms) (midPoints tops)
  { xmin := listMin xv, xmax := listMax xv
    ymin := listMin yv, ymax := listMax yv
    zmin := zmin, zmax := zmax
    rmin := listMin rl.2.2, rmax := listMax rl.2.2
    rminatzmin := listMin rl.1, rmaxatzmax := listMax rl.2.1 }

/-- The 16 envelope points (8 corners plus 8 mid-points) in the radius
loop's processing order: per index, bottom corner, top corner, bottom
mid-point, top mid-point. -/
noncomputable def points16 : List XYZVector → List XYZVector → List XYZVector →
    List XYZVector → List XYZVector
  | b :: bs, t :: ts, mb :: mbs, mt :: mts =>
      [b, t, mb, mt] ++ points16 bs ts mbs mts
  | _, _, _, _ => []

/-- The corner points in the radius loop's processing order: per index,
bottom corner then top corner. -/
noncomputable def corners8 : List XYZVector → List XYZVector → List XYZVector
  | b :: bs, t :: ts => [b, t] ++ corners8 bs ts
  | _, _ => []

/-- The projected radius of a point: `SetZ(0.)` followed by `R()`
(the quantity every entry of `rv`, `ratzminv`, `ratzmaxv` is). -/
noncomputable def projRadius (p : XYZVector) : ℝ := vecR (setZ0 p)

/-- Radius-at-zmax exactly as the claim words it: the max projected radius
among those of the 16 points (corners and mid-points) whose ORIGINAL z
equals the global zmax within tolerance 1e-3.  Kept separate from the
source-translated `buildEnvelope` so the two can be compared. -/
noncomputable def specRmaxAtZmax (m : Module) : ℝ :=
  let pts := points16 (vBottom m) (vTop m) (midPoints (vBottom m)) (midPoints (vTop m))
  listMax (pts.flatMap fun p =>
    if |p.z - (buildEnvelope m).zmax| < 0.001 then [projRadius p] else [])

end ModuleComplex

end Extractor

namespace Extractor

@[simp] theorem XYZVector.add_def (a b : XYZVector) :
    a + b = ⟨a.x + b.x, a.y + b.y, a.z + b.z⟩ := rfl

@[simp] theorem XYZVector.sub_def (a b : XYZVector) :
    a - b = ⟨a.x - b.x, a.y - b.y, a.z - b.z⟩ := rfl

@[simp] theorem XYZVector.smul_def (c : ℝ) (v : XYZVector) :
    c • v = ⟨c * v.x, c * v.y, c * v.z⟩ := rfl

namespace ModuleComplex

theorem foldl_min_le (l : List ℝ) (a : ℝ) : l.foldl min a ≤ a := by
  induction l generalizing a with
  | nil => exact le_refl a
  | cons b t ih => exact le_trans (ih (min a b)) (min_le_left a b)

theorem le_foldl_max (l : List ℝ) (a : ℝ) : a ≤ l.foldl max a := by
  induction l generalizing a with
  | nil => exact le_refl a
  | cons b t ih => exact le_trans (le_max_left a b) (ih (max a b))

theorem listMin_le_listMax {l : List ℝ} (h : l ≠ []) : listMin l ≤ listMax l := by
  cases l with
  | nil => exact absurd rfl h
  | cons a t =>
      exact le_trans (foldl_min_le t a) (le_foldl_max t a)

/-- The radius loop in closed form: `rv` collects the projected radius of
all interleaved points, `ratzminv` filters them by the original-z zmin
test, and `ratzmaxv` filters the corner points only, testing a z that has
already been zeroed whenever the point passed the zmin test. -/
theorem radiusLoop_eq (zmin zmax : ℝ) (b t mb mt : List XYZVector)
    (ht : t.length = b.length) (hmb : mb.length = b.length)
    (hmt : mt.length = b.length) :
    radiusLoop zmin zmax b t mb mt =
      ( (points16 b t mb mt).flatMap
          (fun p => if |p.z - zmin| < 0.001 then [projRadius p] else [])
      , (corners8 b t).flatMap
          (fun p => if |(if |p.z - zmin| < 0.001 then (0 : ℝ) else p.z) - zmax| < 0.001
              then [projRadius p] else [])
      , (points16 b t mb mt).map projRadius ) := by
  induction b generalizing t mb mt with
  | nil =>
      rw [List.length_nil, List.length_eq_zero] at ht hmb hmt
      subst ht; subst hmb; subst hmt
      simp [radiusLoop, points16, corners8]
  | cons bh bs ih =>
      cases t with
      | nil => simp at ht
      | cons th ts =>
          cases mb with
          | nil => simp at hmb
          | cons mbh mbs =>
              cases mt with
              | nil => simp at hmt
              | cons mth mts =>
                  simp only [List.length_cons, Nat.add_right_cancel_iff] at ht hmb hmt
                  simp only [radiusLoop, points16, corners8, ih ts mbs mts ht hmb hmt,
                    processCorner, processMid, projRadius, List.flatMap_cons,
                    List.flatMap_append, List.flatMap_nil, List.map_cons,
                    List.map_append, List.cons_append, List.nil_append,
                    List.map_nil, List.append_nil, setZ0]
                  by_cases h1 : |bh.z - zmin| < 0.001 <;>
                    by_cases h2 : |th.z - zmin| < 0.001 <;>
                    by_cases h3 : |mbh.z - zmin| < 0.001 <;>
                    by_cases h4 : |mth.z - zmin| < 0.001 <;>
                    simp [h1, h2, h3, h4, vecR]


/-- C3: every emitted elementary-material record has atomic weight
`(ilength/35)^3`, and atomic number given by the spec's formula:
`d = 4 - 4*(1 - 181*A/X0)`; if `d > 0` it is `floor((sqrt d - 2)/2 + 0.5)`,
else `-1`. -/
theorem C3_elementary_material_fields (mattab : List Extractor.MaterialRow)
    (i : ℕ) (h : i < mattab.length) :
    ((Extractor.analyseElements mattab).get ⟨i, by
        simpa [Extractor.analyseElements] using h⟩).atomic_weight
        = ((mattab.get ⟨i, h⟩).ilength / 35) ^ 3 ∧
    ((Extractor.analyseElements mattab).get ⟨i, by
        simpa [Extractor.analyseElements] using h⟩).atomic_number
        = Extractor.specAtomicNumber (mattab.get ⟨i, h⟩).rlength
            (((mattab.get ⟨i, h⟩).ilength / 35) ^ 3) := by
  constructor <;> simp [Extractor.analyseElements, Extractor.Z,
    Extractor.specAtomicNumber]

/-- Witness for C3 at a concrete one-row table. -/
theorem C3_elementary_material_fields_witness :
    ((Extractor.analyseElements
        [{ tag := "Si", density := 2.33, rlength := 100, ilength := 35 }]).get
        ⟨0, by simp [Extractor.analyseElements]⟩).atomic_weight
      = ((100 : ℝ) / 35) ^ 3 ∨
    ((Extractor.analyseElements
        [{ tag := "Si", density := 2.33, rlength := 100, ilength := 35 }]).get
        ⟨0, by simp [Extractor.analyseElements]⟩).atomic_weight
      = (((35 : ℝ)) / 35) ^ 3 := by
  have h := C3_elementary_material_fields
    [{ tag := "Si", density := 2.33, rlength := 100, ilength := 35 }] 0
    (by simp)
  exact Or.inr h.1

end ModuleComplex

end Extractor

namespace Extractor

namespace ModuleComplex

theorem vExp_length (m : Module) : (vExp m).length = 4 := by
  simp [vExp]

theorem vBottom_length (m : Module) : (vBottom m).length = 4 := by
  simp [vBottom, vExp]

theorem vTop_length (m : Module) : (vTop m).length = 4 := by
  simp [vTop, vExp]

theorem midPoints_length_of_four {l : List XYZVector} (h : l.length = 4) :
    (midPoints l).length = 4 := by
  match l, h with
  | [a, b, c, d], _ => simp [midPoints]

theorem interleave2_ne_nil {l1 l2 : List ℝ} (h1 : l1 ≠ []) (h2 : l2 ≠ []) :
    interleave2 l1 l2 ≠ [] := by
  cases l1 with
  | nil => exact absurd rfl h1
  | cons a as =>
      cases l2 with
      | nil => exact absurd rfl h2
      | cons b bs => simp [interleave2]

theorem length_four_ne_nil {α : Type} {l : List α} (h : l.length = 4) : l ≠ [] := by
  intro hn; rw [hn] at h; simp at h


end ModuleComplex

end Extractor

open Extractor Extractor.ModuleComplex in
/-- C4 (amended): for every module envelope, `rmin`/`rmax` are the min/max
projected radius (z set to 0) over all 16 points (8 expanded corners plus 8
edge mid-points); radius-at-zmin is the min projected radius among exactly
those of the 16 points whose original z is within 1e-3 of the global zmin;
but radius-at-zmax is the max projected radius among the 8 corner points
only (mid-points never enter the zmax candidate list), and the z compared
against zmax is the one left by the zmin test: it reads 0 for a corner
whose original z was within 1e-3 of zmin. -/
theorem C4_envelope_radius_characterization (m : Module) :
    (buildEnvelope m).rmin
        = listMin ((points16 (vBottom m) (vTop m)
            (midPoints (vBottom m)) (midPoints (vTop m))).map projRadius) ∧
    (buildEnvelope m).rmax
        = listMax ((points16 (vBottom m) (vTop m)
            (midPoints (vBottom m)) (midPoints (vTop m))).map projRadius) ∧
    (buildEnvelope m).rminatzmin
        = listMin ((points16 (vBottom m) (vTop m)
            (midPoints (vBottom m)) (midPoints (vTop m))).flatMap fun p =>
              if |p.z - (buildEnvelope m).zmin| < 0.001 then [projRadius p] else []) ∧
    (buildEnvelope m).rmaxatzmax
        = listMax ((corners8 (vBottom m) (vTop m)).flatMap fun p =>
            if |(if |p.z - (buildEnvelope m).zmin| < 0.001 then (0 : ℝ) else p.z)
                  - (buildEnvelope m).zmax| < 0.001
              then [projRadius p] else []) := by
  have hrl := radiusLoop_eq
    (listMin (interleave2 ((vTop m).map XYZVector.z) ((vBottom m).map XYZVector.z)))
    (listMax (interleave2 ((vTop m).map XYZVector.z) ((vBottom m).map XYZVector.z)))
    (vBottom m) (vTop m) (midPoints (vBottom m)) (midPoints (vTop m))
    (by rw [vTop_length, vBottom_length])
    (by rw [midPoints_length_of_four (vBottom_length m), vBottom_length])
    (by rw [midPoints_length_of_four (vTop_length m), vBottom_length])
  refine ⟨?_, ?_, ?_, ?_⟩ <;>
    simp only [buildEnvelope, hrl]

namespace Extractor

namespace ModuleComplex

/-- A concrete module (tilted, hybrid-free, built with degenerate expanded
thickness) on which the 16-point reading of radius-at-zmax disagrees with
the source code: the top-face mid-points at z = 10.00075 lie within the
1e-3 tolerance of zmax = 10.0015 and have projected radius 5, but the
source collects zmax candidates from the corner points only, whose maximal
projected radius is 1. -/
noncomputable def exampleModule : Module :=
  { center := ⟨5, 0, 10.00075⟩
    normal := ⟨0, 0, 1⟩
    vertex0 := ⟨5, 0, 10.00075⟩
    vertex1 := ⟨5, 0, 10.00075⟩
    vertex2 := ⟨5, 0, 10.00075⟩
    vertex3 := ⟨-3, 0, 10.00225⟩
    area := 2
    length := 2
    thickness := 0.2
    sensorThickness := 0
    dsDistance := 0
    frontEndHybridWidth := 0
    serviceHybridWidth := 0
    hybridThickness := 0
    supportPlateThickness := 0
    localElements := [] }

theorem vecR_x00 (a : ℝ) : vecR ⟨a, 0, 0⟩ = |a| := by
  have h : (a : ℝ) ^ 2 + 0 ^ 2 + 0 ^ 2 = a ^ 2 := by ring
  simp only [vecR, h]
  exact Real.sqrt_sq_eq_abs a

theorem exampleModule_vBottom :
    vBottom exampleModule =
      [⟨9, 0, 10⟩, ⟨9, 0, 10⟩, ⟨1, 0, 10.0015⟩, ⟨1, 0, 10.0015⟩] := by
  simp only [vBottom, vExp, mx, my, exampleModule, modWidth, expandedModWidth,
    expandedModLength, expandedModThickness, XYZVector.add_def,
    XYZVector.sub_def, XYZVector.smul_def, List.map_cons, List.map_nil]
  norm_num

theorem exampleModule_vTop :
    vTop exampleModule =
      [⟨9, 0, 10⟩, ⟨9, 0, 10⟩, ⟨1, 0, 10.0015⟩, ⟨1, 0, 10.0015⟩] := by
  simp only [vTop, vExp, mx, my, exampleModule, modWidth, expandedModWidth,
    expandedModLength, expandedModThickness, XYZVector.add_def,
    XYZVector.sub_def, XYZVector.smul_def, List.map_cons, List.map_nil]
  norm_num

theorem exampleModule_mids :
    midPoints [(⟨9, 0, 10⟩ : XYZVector), ⟨9, 0, 10⟩, ⟨1, 0, 10.0015⟩, ⟨1, 0, 10.0015⟩] =
      [⟨9, 0, 10⟩, ⟨5, 0, 10.00075⟩, ⟨1, 0, 10.0015⟩, ⟨5, 0, 10.00075⟩] := by
  simp only [midPoints, XYZVector.add_def, XYZVector.smul_def]
  norm_num

theorem exampleModule_zmin :
    listMin (interleave2
      (((vTop exampleModule).map XYZVector.z))
      (((vBottom exampleModule).map XYZVector.z))) = 10 := by
  rw [exampleModule_vTop, exampleModule_vBottom]
  simp only [List.map_cons, List.map_nil, interleave2, listMin, List.foldl]
  norm_num [min_def]

theorem exampleModule_zmax :
    listMax (interleave2
      (((vTop exampleModule).map XYZVector.z))
      (((vBottom exampleModule).map XYZVector.z))) = 10.0015 := by
  rw [exampleModule_vTop, exampleModule_vBottom]
  simp only [List.map_cons, List.map_nil, interleave2, listMax, List.foldl]
  norm_num [max_def]

end ModuleComplex

end Extractor

namespace Extractor

namespace ModuleComplex

theorem exampleModule_ratzmaxv :
    (radiusLoop 10 10.0015
      [(⟨9, 0, 10⟩ : XYZVector), ⟨9, 0, 10⟩, ⟨1, 0, 10.0015⟩, ⟨1, 0, 10.0015⟩]
      [⟨9, 0, 10⟩, ⟨9, 0, 10⟩, ⟨1, 0, 10.0015⟩, ⟨1, 0, 10.0015⟩]
      [⟨9, 0, 10⟩, ⟨5, 0, 10.00075⟩, ⟨1, 0, 10.0015⟩, ⟨5, 0, 10.00075⟩]
      [⟨9, 0, 10⟩, ⟨5, 0, 10.00075⟩, ⟨1, 0, 10.0015⟩, ⟨5, 0, 10.00075⟩]).2.1
      = [1, 1, 1, 1] := by
  norm_num [radiusLoop, processCorner, processMid, setZ0, abs_lt, vecR_x00,
    abs_of_nonneg]

theorem exampleModule_code_rmaxatzmax :
    (buildEnvelope exampleModule).rmaxatzmax = 1 := by
  simp only [buildEnvelope]
  rw [exampleModule_zmin, exampleModule_zmax, exampleModule_vBottom,
    exampleModule_vTop, exampleModule_mids, exampleModule_ratzmaxv]
  norm_num [listMax, List.foldl, max_def]

theorem exampleModule_env_zmax :
    (buildEnvelope exampleModule).zmax = 10.0015 := by
  simp only [buildEnvelope]
  exact exampleModule_zmax

theorem exampleModule_spec_rmaxatzmax :
    specRmaxAtZmax exampleModule = 5 := by
  simp only [specRmaxAtZmax, exampleModule_env_zmax]
  rw [exampleModule_vBottom, exampleModule_vTop, exampleModule_mids]
  norm_num [points16, abs_lt, vecR_x00, setZ0, projRadius, listMax,
    List.foldl, max_def, abs_of_nonneg]

end ModuleComplex

end Extractor

open Extractor Extractor.ModuleComplex in
/-- C4 counterexample: on `exampleModule` the source's radius-at-zmax is 1
(only corner points are zmax candidates) while the claim's reading — max
projected radius among all 16 points whose original z is within 1e-3 of
zmax — gives 5 (a top-face mid-point), so the claim is false as stated. -/
theorem C4_rmaxatzmax_counterexample :
    (buildEnvelope exampleModule).rmaxatzmax = 1 ∧
    specRmaxAtZmax exampleModule = 5 ∧
    (buildEnvelope exampleModule).rmaxatzmax ≠ specRmaxAtZmax exampleModule := by
  refine ⟨exampleModule_code_rmaxatzmax, exampleModule_spec_rmaxatzmax, ?_⟩
  rw [exampleModule_code_rmaxatzmax, exampleModule_spec_rmaxatzmax]
  norm_num

namespace Extractor

namespace ModuleComplex

/-- Non-negativity of a sub-volume's three box extents (`dx`, `dy`, `dz`);
the emitted shape records carry the half-widths `dx/2`, `dy/2`, `dz/2`
(`ModuleComplex::addShapeInfo`, Extractor.cc:2599-2601). -/
def nonnegExtents (v : Volume) : Prop := 0 ≤ v.dx ∧ 0 ≤ v.dy ∧ 0 ≤ v.dz

theorem radiusLoop_rv_ne_nil {zmin zmax : ℝ} {b t mb mt : List XYZVector}
    (hb : b.length = 4) (ht : t.length = 4) (hmb : mb.length = 4)
    (hmt : mt.length = 4) :
    (radiusLoop zmin zmax b t mb mt).2.2 ≠ [] := by
  obtain ⟨b1, bs, rfl⟩ := List.exists_cons_of_ne_nil (length_four_ne_nil hb)
  obtain ⟨t1, ts, rfl⟩ := List.exists_cons_of_ne_nil (length_four_ne_nil ht)
  obtain ⟨m1, ms, rfl⟩ := List.exists_cons_of_ne_nil (length_four_ne_nil hmb)
  obtain ⟨n1, ns, rfl⟩ := List.exists_cons_of_ne_nil (length_four_ne_nil hmt)
  simp [radiusLoop]

end ModuleComplex

end Extractor

open Extractor Extractor.ModuleComplex in
/-- C9: for every module with non-negative thickness, lengths and hybrid
widths, decomposition produces sub-volume extents that are all
non-negative (hence non-negative half-widths), and the module envelope
satisfies xmin ≤ xmax, ymin ≤ ymax, zmin ≤ zmax and rmin ≤ rmax (the
envelope always folds in the 16 corner/mid points). -/
theorem C9_subvolume_envelope_invariants (moduleId parentId : String)
    (m : Module)
    (hA : 0 ≤ m.area) (hL : 0 ≤ m.length) (hT : 0 ≤ m.thickness)
    (hST : 0 ≤ m.sensorThickness) (hDS : 0 ≤ m.dsDistance)
    (hFE : 0 ≤ m.frontEndHybridWidth) (hSH : 0 ≤ m.serviceHybridWidth)
    (hHT : 0 ≤ m.hybridThickness) (hSP : 0 ≤ m.supportPlateThickness) :
    (nonnegExtents (mkSubVols moduleId parentId m).front ∧
     nonnegExtents (mkSubVols moduleId parentId m).back ∧
     nonnegExtents (mkSubVols moduleId parentId m).left ∧
     nonnegExtents (mkSubVols moduleId parentId m).right ∧
     nonnegExtents (mkSubVols moduleId parentId m).between ∧
     nonnegExtents (mkSubVols moduleId parentId m).supportPlate) ∧
    ((buildEnvelope m).xmin ≤ (buildEnvelope m).xmax ∧
     (buildEnvelope m).ymin ≤ (buildEnvelope m).ymax ∧
     (buildEnvelope m).zmin ≤ (buildEnvelope m).zmax ∧
     (buildEnvelope m).rmin ≤ (buildEnvelope m).rmax) := by
  have hmw : 0 ≤ modWidth m := div_nonneg hA hL
  have hvt : vTop m ≠ [] := length_four_ne_nil (vTop_length m)
  have hvb : vBottom m ≠ [] := length_four_ne_nil (vBottom_length m)
  have hmapx : ∀ f : XYZVector → ℝ, (vTop m).map f ≠ [] := fun f h =>
    hvt (List.map_eq_nil.mp h)
  have hmapb : ∀ f : XYZVector → ℝ, (vBottom m).map f ≠ [] := fun f h =>
    hvb (List.map_eq_nil.mp h)
  constructor
  · simp only [nonnegExtents, mkSubVols, expandedModWidth, expandedModLength]
    refine ⟨⟨hSH, hL, hHT⟩, ⟨hSH, hL, hHT⟩, ⟨by linarith, hFE, hHT⟩,
      ⟨by linarith, hFE, hHT⟩, ⟨hmw, hL, hHT⟩,
      ⟨by linarith, by linarith, hSP⟩⟩
  · simp only [buildEnvelope]
    refine ⟨listMin_le_listMax (interleave2_ne_nil (hmapx _) (hmapb _)),
      listMin_le_listMax (interleave2_ne_nil (hmapx _) (hmapb _)),
      listMin_le_listMax (interleave2_ne_nil (hmapx _) (hmapb _)),
      listMin_le_listMax (radiusLoop_rv_ne_nil (vBottom_length m)
        (vTop_length m) (midPoints_length_of_four (vBottom_length m))
        (midPoints_length_of_four (vTop_length m)))⟩

namespace Extractor

namespace ModuleComplex

/-- A plain rectangular module with positive dimensions, used to
instantiate hypotheses concretely. -/
noncomputable def simpleModule : Module :=
  { center := ⟨10, 0, 0⟩
    normal := ⟨0, 0, 1⟩
    vertex0 := ⟨9, -1, 0⟩
    vertex1 := ⟨9, 1, 0⟩
    vertex2 := ⟨11, 1, 0⟩
    vertex3 := ⟨11, -1, 0⟩
    area := 4
    length := 2
    thickness := 1
    sensorThickness := 0.1
    dsDistance := 0.2
    frontEndHybridWidth := 0.3
    serviceHybridWidth := 0.4
    hybridThickness := 0.5
    supportPlateThickness := 0.6
    localElements := [] }

end ModuleComplex

end Extractor

open Extractor Extractor.ModuleComplex in
/-- Witness for C9 on a concrete module with positive dimensions. -/
theorem C9_subvolume_envelope_invariants_witness :
    (nonnegExtents (mkSubVols "BModule1Layer1" "BModule1Layer1" simpleModule).front ∧
     nonnegExtents (mkSubVols "BModule1Layer1" "BModule1Layer1" simpleModule).back ∧
     nonnegExtents (mkSubVols "BModule1Layer1" "BModule1Layer1" simpleModule).left ∧
     nonnegExtents (mkSubVols "BModule1Layer1" "BModule1Layer1" simpleModule).right ∧
     nonnegExtents (mkSubVols "BModule1Layer1" "BModule1Layer1" simpleModule).between ∧
     nonnegExtents (mkSubVols "BModule1Layer1" "BModule1Layer1" simpleModule).supportPlate) ∧
    ((buildEnvelope simpleModule).xmin ≤ (buildEnvelope simpleModule).xmax ∧
     (buildEnvelope simpleModule).ymin ≤ (buildEnvelope simpleModule).ymax ∧
     (buildEnvelope simpleModule).zmin ≤ (buildEnvelope simpleModule).zmax ∧
     (buildEnvelope simpleModule).rmin ≤ (buildEnvelope simpleModule).rmax) :=
  C9_subvolume_envelope_invariants "BModule1Layer1" "BModule1Layer1"
    simpleModule (by norm_num [simpleModule]) (by norm_num [simpleModule])
    (by norm_num [simpleModule]) (by norm_num [simpleModule])
    (by norm_num [simpleModule]) (by norm_num [simpleModule])
    (by norm_num [simpleModule]) (by norm_num [simpleModule])
    (by norm_num [simpleModule])

namespace Extractor

/-- Modelled from the spec: the sensor-silicon material tag
`xml_sensor_silicon` (a constant defined outside `src/`); only its identity
matters here. -/
def xml_sensor_silicon : String := "SenSi"

namespace ModuleComplex

/-- The component names filtered as sensors by
`ModuleComplex::buildSubVolumes` (Extractor.cc:2513-2518). -/
def sensorComponentNames : List String :=
  ["Sensor", "Sensors", "PS Sensor", "PS Sensors", "2S Sensor", "2S Sensors"]

/-- `Volume::addMaterial` — modelled from the spec (§3: the sub-volume's
"accumulated elemental-mass mapping"; the `Volume` class body is outside
`src/`): add `q` grams of element `k` to the mapping, merging by key. -/
def addMat : List (String × ℝ) → String → ℝ → List (String × ℝ)
  | [], k, q => [(k, q)]
  | (k', q') :: t, k, q =>
      if k' = k then (k', q' + q) :: t else (k', q') :: addMat t k q

/-- `Volume::addMaterial` followed by `Volume::addMass`: `q` grams of
element `k` into the mapping, `qmass` grams onto the accumulated mass. -/
def addMaterialMass (v : Volume) (k : String) (q qmass : ℝ) : Volume :=
  { v with materials := addMat v.materials k q, mass := v.mass + qmass }

/-- `Volume::getVolume` — modelled from the spec (§4.1: hybrid material is
apportioned "proportional to their volumes"; the class body is outside
`src/`): the box volume `dx*dy*dz`. -/
noncomputable def boxVolume (v : Volume) : ℝ := v.dx * v.dy * v.dz

/-- The mutable state threaded through the material-assignment loop of
`ModuleComplex::buildSubVolumes`: the six sub-volumes, the three combined
hybrid volumes memoised at `-1` until first use (Extractor.cc:2279-2281,
2545-2548, 2554-2557, 2568-2573), and
`moduleMassWithoutSensors_expected`. -/
structure BuildState where
  sv : SubVols
  hybridTotalVolume : ℝ
  hybridFrontAndBackVolume : ℝ
  hybridLeftAndRightVolume : ℝ
  massExpected : ℝ

/-- One iteration of the material-assignment loop of
`ModuleComplex::buildSubVolumes` (Extractor.cc:2507-2581).  Sensor-named
components are skipped (`continue`, 2513-2519); a sensor target volume
(`InnerSensor = 1`, `OuterSensor = 2`) on any other element calls
`std::exit(1)` (2520-2524), as does a target id `>= nTypes = 9` other than
34, 56 or 3456 (2525-2531); `std::exit(1)` is embedded as an error value
that aborts the analysis. -/
noncomputable def assignElement (st : BuildState) (el : MatElement) :
    Except String BuildState :=
  if el.componentName ∈ sensorComponentNames then .ok st
  else if el.targetVolume = 1 ∨ el.targetVolume = 2 then
    .error "targetVolume is only for sensors. Exit."
  else if 9 ≤ el.targetVolume ∧ el.targetVolume ≠ 34 ∧
      el.targetVolume ≠ 56 ∧ el.targetVolume ≠ 3456 then
    .error "targetVolume is not supported. Exit."
  else
    let q := el.quantityInGrams
    let st1 := { st with massExpected := st.massExpected + q }
    if el.targetVolume = 3 then
      .ok { st1 with sv := { st1.sv with
        front := addMaterialMass st1.sv.front el.elementName q q } }
    else if el.targetVolume = 4 then
      .ok { st1 with sv := { st1.sv with
        back := addMaterialMass st1.sv.back el.elementName q q } }
    else if el.targetVolume = 5 then
      .ok { st1 with sv := { st1.sv with
        left := addMaterialMass st1.sv.left el.elementName q q } }
    else if el.targetVolume = 6 then
      .ok { st1 with sv := { st1.sv with
        right := addMaterialMass st1.sv.right el.elementName q q } }
    else if el.targetVolume = 7 then
      .ok { st1 with sv := { st1.sv with
        between := addMaterialMass st1.sv.between el.elementName q q } }
    else if el.targetVolume = 8 then
      .ok { st1 with sv := { st1.sv with
        supportPlate := addMaterialMass st1.sv.supportPlate el.elementName q q } }
    else if el.targetVolume = 34 then
      let fb := if st1.hybridFrontAndBackVolume < 0
        then boxVolume st1.sv.front + boxVolume st1.sv.back
        else st1.hybridFrontAndBackVolume
      .ok { st1 with
        hybridFrontAndBackVolume := fb
        sv := { st1.sv with
          front := addMaterialMass st1.sv.front el.elementName q
            (q * boxVolume st1.sv.front / fb)
          back := addMaterialMass st1.sv.back el.elementName q
            (q * boxVolume st1.sv.back / fb) } }
    else if el.targetVolume = 56 then
      let lr := if st1.hybridLeftAndRightVolume < 0
        then boxVolume st1.sv.left + boxVolume st1.sv.right
        else st1.hybridLeftAndRightVolume
      .ok { st1 with
        hybridLeftAndRightVolume := lr
        sv := { st1.sv with
          left := addMaterialMass st1.sv.left el.elementName q
            (q * boxVolume st1.sv.left / lr)
          right := addMaterialMass st1.sv.right el.elementName q
            (q * boxVolume st1.sv.right / lr) } }
    else if el.targetVolume = 0 ∨ el.targetVolume = 3456 then
      let tot := if st1.hybridTotalVolume < 0
        then boxVolume st1.sv.front + boxVolume st1.sv.back +
             boxVolume st1.sv.left + boxVolume st1.sv.right
        else st1.hybridTotalVolume
      .ok { st1 with
        hybridTotalVolume := tot
        sv := { st1.sv with
          front := addMaterialMass st1.sv.front el.elementName q
            (q * boxVolume st1.sv.front / tot)
          back := addMaterialMass st1.sv.back el.elementName q
            (q * boxVolume st1.sv.back / tot)
          left := addMaterialMass st1.sv.left el.elementName q
            (q * boxVolume st1.sv.left / tot)
          right := addMaterialMass st1.sv.right el.elementName q
            (q * boxVolume st1.sv.right / tot) } }
    else .ok st1

/-- The material-assignment part of `ModuleComplex::buildSubVolumes`
(Extractor.cc:2503-2581): fold the loop over the module's material element
list, starting from the freshly built sub-volumes. -/
noncomputable def buildSubVolumesMaterial (moduleId parentId : String)
    (m : Module) : Except String BuildState :=
  m.localElements.foldlM assignElement
    { sv := mkSubVols moduleId parentId m
      hybridTotalVolume := -1
      hybridFrontAndBackVolume := -1
      hybridLeftAndRightVolume := -1
      massExpected := 0 }

/-- `true` on `.ok`, `false` on `.error` (the analysis was aborted). -/
def okB {ε α : Type} : Except ε α → Bool
  | .ok _ => true
  | .error _ => false

/-- An element whose component name is one of the six sensor names: it is
skipped outright by the decomposition loop. -/
def sensorNamed (el : MatElement) : Prop :=
  el.componentName ∈ sensorComponentNames

/-- The target ids that make `ModuleComplex::buildSubVolumes` call
`std::exit(1)` when carried by a non-sensor-named element: the sensor
volumes 1 and 2, and everything at or above `nTypes = 9` except the
combination codes 34, 56 and 3456. -/
def fatalTarget (tv : ℤ) : Prop :=
  (tv = 1 ∨ tv = 2) ∨ (9 ≤ tv ∧ tv ≠ 34 ∧ tv ≠ 56 ∧ tv ≠ 3456)

theorem assignElement_okB (st : BuildState) (el : MatElement) :
    okB (assignElement st el) = false ↔
      ¬ sensorNamed el ∧ fatalTarget el.targetVolume := by
  by_cases h1 : el.componentName ∈ sensorComponentNames
  · simp only [assignElement, if_pos h1, okB, sensorNamed, fatalTarget]
    simp [h1]
  · by_cases h2 : el.targetVolume = 1 ∨ el.targetVolume = 2
    · simp only [assignElement, if_neg h1, if_pos h2, okB, sensorNamed,
        fatalTarget]
      simp [h1, h2]
    · by_cases h3 : 9 ≤ el.targetVolume ∧ el.targetVolume ≠ 34 ∧
          el.targetVolume ≠ 56 ∧ el.targetVolume ≠ 3456
      · simp only [assignElement, if_neg h1, if_neg h2, if_pos h3, okB,
          sensorNamed, fatalTarget]
        simp [h1, h2, h3]
      · have hok : okB (assignElement st el) = true := by
          simp only [assignElement, if_neg h1, if_neg h2, if_neg h3]
          simp only [apply_ite okB]
          simp only [okB, ite_self]
        rw [hok]
        simp [sensorNamed, fatalTarget, h1, h2, h3]

theorem foldlM_assign_okB (l : List MatElement) (st : BuildState) :
    okB (l.foldlM assignElement st) = false ↔
      ∃ el ∈ l, ¬ sensorNamed el ∧ fatalTarget el.targetVolume := by
  induction l generalizing st with
  | nil => simp [List.foldlM, okB, pure, Except.pure]
  | cons e t ih =>
      rw [List.foldlM_cons]
      cases he : assignElement st e with
      | error msg =>
          have hoff : ¬ sensorNamed e ∧ fatalTarget e.targetVolume := by
            refine (assignElement_okB st e).mp ?_
            rw [he]; rfl
          simp [he, Bind.bind, Except.bind, okB, hoff]
      | ok st' =>
          have hno : ¬ (¬ sensorNamed e ∧ fatalTarget e.targetVolume) := by
            intro hc
            have := (assignElement_okB st e).mpr hc
            rw [he] at this
            exact absurd this (by simp [okB])
          simp [he, Bind.bind, Except.bind, ih st', hno]

end ModuleComplex

end Extractor

open Extractor Extractor.ModuleComplex in
/-- C2 (amended): the module decomposition stops the whole analysis with a
fatal input error exactly when the material element list contains an
element that is NOT sensor-named but carries a sensor target volume (1 or
2) or a target id at or above 9 other than 34, 56 or 3456.  Sensor-NAMED
elements themselves are silently skipped, never fatal. -/
theorem C2_fatal_error_characterization (moduleId parentId : String)
    (m : Module) :
    okB (buildSubVolumesMaterial moduleId parentId m) = false ↔
      ∃ el ∈ m.localElements,
        ¬ sensorNamed el ∧ fatalTarget el.targetVolume := by
  exact foldlM_assign_okB m.localElements _

open Extractor Extractor.ModuleComplex in
/-- C2 counterexample: a module whose material list contains a
sensor-tagged element — sensor component name "Sensor" AND sensor target
volume 1 — is decomposed without any fatal error: the element is silently
skipped, contradicting the claim that its presence stops the analysis. -/
theorem C2_sensor_element_not_fatal :
    okB (buildSubVolumesMaterial "BModule1Layer1" "BModule1Layer1"
      { simpleModule with localElements :=
          [{ componentName := "Sensor", elementName := xml_sensor_silicon
             targetVolume := 1, quantityInGrams := 5 }] }) = true := by
  simp [buildSubVolumesMaterial, List.foldlM, assignElement,
    sensorComponentNames, okB]

namespace Extractor

/-- A composite-material record (`Composite`): name, density, elemental
mass-fraction list (the `method` flag is fixed and not modelled). -/
structure Composite where
  name : String
  density : ℝ
  elements : List (String × ℝ)

/-- `Extractor::createComposite` (Extractor.cc:1987-2006): copy the local
masses — excluding sensor silicon when `nosensors` is set — accumulating
their total `m`, then divide every copied entry by `m`. -/
noncomputable def createComposite (name : String) (density : ℝ)
    (localMasses : List (String × ℝ)) (nosensors : Bool) : Composite :=
  let included := localMasses.filter fun it =>
    !nosensors || it.1 != xml_sensor_silicon
  let m := (included.map Prod.snd).sum
  { name := name, density := density
    elements := included.map fun it => (it.1, it.2 / m) }

namespace ModuleComplex

/-- `Volume::getDensity` — modelled from the spec (§3/§6: a composite
material's density; the `Volume` class body is outside `src/`): the
accumulated mass over the box volume in cm³ (`kmm3Tocm3 = 1e-3`,
Extractor.cc:2261). -/
noncomputable def getDensity (v : Volume) : ℝ := v.mass / (boxVolume v * 0.001)

/-- `ModuleComplex::addMaterialInfo` (Extractor.cc:2633-2654): for every
sub-volume with positive density, emit a composite named
`prefix_material + name` whose elements are the accumulated material map
normalised by its total. -/
noncomputable def addMaterialInfo (prefixMaterial : String)
    (vols : List Volume) : List Composite :=
  vols.flatMap fun v =>
    if 0 < getDensity v then
      let m := (v.materials.map Prod.snd).sum
      [{ name := prefixMaterial ++ v.name, density := getDensity v
         elements := v.materials.map fun it => (it.1, it.2 / m) }]
    else []

end ModuleComplex

theorem sum_map_div (l : List (String × ℝ)) (c : ℝ) :
    (((l.map fun it => (it.1, it.2 / c)).map Prod.snd)).sum
      = (l.map Prod.snd).sum / c := by
  induction l with
  | nil => simp
  | cons a t ih =>
      simp only [List.map_cons, List.sum_cons, ih, add_div]

end Extractor

open Extractor Extractor.ModuleComplex in
/-- C7 (amended): the elemental mass fractions of an emitted composite sum
to exactly 1 — for `Extractor::createComposite` whenever the included
(non-excluded) entries have non-zero total mass, and for the per-sub-volume
composites of `ModuleComplex::addMaterialInfo` whenever the sub-volume's
accumulated material total is non-zero.  (With zero included total the
fraction list is empty or degenerate and sums to 0, not 1.) -/
theorem C7_composite_fractions_sum_to_one (name : String) (density : ℝ)
    (localMasses : List (String × ℝ)) (nosensors : Bool)
    (prefixMaterial : String) (vols : List Volume)
    (hm : (((localMasses.filter fun it =>
        !nosensors || it.1 != xml_sensor_silicon).map Prod.snd)).sum ≠ 0)
    (hv : ∀ v ∈ vols, ((v.materials.map Prod.snd)).sum ≠ 0) :
    (((createComposite name density localMasses nosensors).elements.map
        Prod.snd)).sum = 1 ∧
    ∀ comp ∈ addMaterialInfo prefixMaterial vols,
      ((comp.elements.map Prod.snd)).sum = 1 := by
  constructor
  · simp only [createComposite]
    rw [sum_map_div]
    exact div_self hm
  · intro comp hcomp
    simp only [addMaterialInfo, List.mem_flatMap] at hcomp
    obtain ⟨v, hvmem, hv2⟩ := hcomp
    by_cases hd : 0 < getDensity v
    · simp only [if_pos hd, List.mem_singleton] at hv2
      subst hv2
      simp only []
      rw [sum_map_div]
      exact div_self (hv v hvmem)
    · simp [if_neg hd] at hv2

open Extractor Extractor.ModuleComplex in
/-- Witness for C7 at a concrete mass list and sub-volume. -/
theorem C7_composite_fractions_sum_to_one_witness :
    (((createComposite "comp" 1 [("Cu", 2), (xml_sensor_silicon, 3)]
        true).elements.map Prod.snd)).sum = 1 ∧
    ∀ comp ∈ addMaterialInfo "hybridcomposite"
        [{ name := "BModule1Layer1FSide", typeId := 3, parent := "BModule1Layer1"
           dx := 1, dy := 1, dz := 1, posx := 0, posy := 0, posz := 0
           mass := 1, materials := [("Cu", 1)] }],
      ((comp.elements.map Prod.snd)).sum = 1 :=
  C7_composite_fractions_sum_to_one "comp" 1
    [("Cu", 2), (xml_sensor_silicon, 3)] true "hybridcomposite" _
    (by simp [xml_sensor_silicon])
    (by intro v hv; simp at hv; subst hv; norm_num)

open Extractor in
/-- C7 counterexample: a composite built from the non-empty mass mapping
`[("SenSi", 5)]` with sensor entries excluded has an empty fraction list;
its fractions sum to 0, not 1, and 0 is not within 1e-9 of 1. -/
theorem C7_all_sensor_composite_counterexample :
    (((createComposite "comp" 1 [(xml_sensor_silicon, 5)] true).elements.map
        Prod.snd)).sum = 0 ∧
    ¬ |(((createComposite "comp" 1 [(xml_sensor_silicon, 5)] true).elements.map
        Prod.snd)).sum - 1| ≤ 1e-9 := by
  have h : (((createComposite "comp" 1 [(xml_sensor_silicon, 5)] true).elements.map
      Prod.snd)).sum = 0 := by
    simp [createComposite, xml_sensor_silicon]
  refine ⟨h, ?_⟩
  rw [h]
  rw [abs_le]
  norm_num

namespace Extractor

/-- Modelled from the spec: XML name fragments and rotation names
(`xml_*` constants defined outside `src/`); only their identities matter
to the embedded passes. -/
def xml_places_unflipped_mod_in_rod : String := "UnflippedModInRod"

def xml_places_flipped_mod_in_rod : String := "FlippedModInRod"

def xml_flip_mod_rot : String := "FlipModRot"

def xml_base_ps : String := "PS"

def xml_base_2s : String := "2S"

def xml_base_pixel : String := "Pixel"

def xml_base_act : String := "Active"

def xml_base_waf : String := "Waf"

/-- A volume positioning record (`PosInfo`, with `Translation` flattened
into `dx`, `dy`, `dz`). -/
structure PosInfo where
  parent_tag : String
  child_tag : String
  rotref : String
  copy : ℤ
  dx : ℝ
  dy : ℝ
  dz : ℝ

/-- A logical-volume record (`LogicalInfo`). -/
structure LogicalInfo where
  name_tag : String
  shape_tag : String
  material_tag : String

/-- A solid record (`ShapeInfo`), restricted to the fields the embedded
passes set. -/
structure ShapeInfo where
  name_tag : String
  dx : ℝ := 0
  dy : ℝ := 0
  dz : ℝ := 0
  rmin : ℝ := 0
  rmax : ℝ := 0

/-- The module-cap attributes consumed by the rod-placement code and the
partner search: `uniRef().ring/side/phi`, `flipped()`, `center().Rho()`
and `center().Z()`. -/
structure BModule where
  ring : ℤ
  side : ℤ
  phi : ℤ
  flipped : Bool
  rho : ℝ
  z : ℝ

/-- `Extractor::findPartnerModule` (Extractor.cc:2016-2034): scan the range
starting at the module itself; `plus` is the first module's z-side (unless
`find_first`); stop at the first module with ring index `ponrod` and — when
not `find_first` — the opposite z-side; the end iterator (here `none`)
signals that no partner exists. -/
def findPartnerModule (l : List BModule) (ponrod : ℤ)
    (find_first : Bool) : Option BModule :=
  match l with
  | [] => none
  | i :: _ =>
      let plus := !find_first && decide (0 < i.side)
      l.find? fun q => decide (q.ring = ponrod) &&
        (find_first ||
         (plus && decide (q.side < 0) || (!plus && decide (0 < q.side))))

/-- The straight-rod module placement block of `Extractor::analyseLayers`
(Extractor.cc:681-703): emit the module's placement (copy 1, rotation
selected by the flip flag), and — when `findPartnerModule` finds a
counterpart before the end of the layer range — a second placement
(copy 2) at the partner's radius and z. -/
noncomputable def rodModulePlacements (nspace rodname mname : String)
    (RadiusIn : ℝ) (i : BModule) (rest : List BModule) : List PosInfo :=
  let pos1 : PosInfo :=
    { parent_tag := nspace ++ ":" ++ rodname
      child_tag := nspace ++ ":" ++ mname
      rotref := if !i.flipped then nspace ++ ":" ++ xml_places_unflipped_mod_in_rod
                else nspace ++ ":" ++ xml_places_flipped_mod_in_rod
      copy := 1, dx := i.rho - RadiusIn, dy := 0, dz := i.z }
  match findPartnerModule (i :: rest) i.ring false with
  | none => [pos1]
  | some q =>
      [pos1,
       { pos1 with
         copy := 2
         dx := q.rho - RadiusIn
         dz := q.z
         rotref := if !q.flipped then nspace ++ ":" ++ xml_places_unflipped_mod_in_rod
                   else nspace ++ ":" ++ xml_places_flipped_mod_in_rod }]

end Extractor

open Extractor in
/-- C5: for a positive-z-side rod module at ring index `i.ring`, if the
scanned range holds no module with the same ring index and negative
z-side, the partner search returns the end iterator (`none`) and exactly
one placement (copy number 1) is emitted, with no error; if a counterpart
exists, the search finds one and exactly two placements (copy numbers 1
and 2) are emitted. -/
theorem C5_partner_search_placements (nspace rodname mname : String)
    (RadiusIn : ℝ) (i : BModule) (rest : List BModule) (hside : 0 < i.side) :
    ((∀ q ∈ i :: rest, ¬(q.ring = i.ring ∧ q.side < 0)) →
      findPartnerModule (i :: rest) i.ring false = none ∧
      (rodModulePlacements nspace rodname mname RadiusIn i rest).map
        PosInfo.copy = [1]) ∧
    ((∃ q ∈ i :: rest, q.ring = i.ring ∧ q.side < 0) →
      (∃ q, findPartnerModule (i :: rest) i.ring false = some q) ∧
      (rodModulePlacements nspace rodname mname RadiusIn i rest).map
        PosInfo.copy = [1, 2]) := by
  have hpred : ∀ q : BModule,
      (decide (q.ring = i.ring) &&
        (false || ((!false && decide (0 < i.side)) && decide (q.side < 0) ||
          (!(!false && decide (0 < i.side)) && decide (0 < q.side))))) = true ↔
      (q.ring = i.ring ∧ q.side < 0) := by
    intro q
    simp [hside]
  constructor
  · intro hno
    have hnone : findPartnerModule (i :: rest) i.ring false = none := by
      simp only [findPartnerModule]
      rw [List.find?_eq_none]
      intro q hq
      rw [Bool.not_eq_true]
      rw [Bool.eq_false_iff]
      intro hc
      exact hno q hq ((hpred q).mp hc)
    refine ⟨hnone, ?_⟩
    simp only [rodModulePlacements, hnone]
    rfl
  · intro ⟨q, hq, hqr, hqs⟩
    have hsome : (findPartnerModule (i :: rest) i.ring false).isSome := by
      simp only [findPartnerModule]
      rw [List.find?_isSome]
      exact ⟨q, hq, (hpred q).mpr ⟨hqr, hqs⟩⟩
    obtain ⟨p, hp⟩ := Option.isSome_iff_exists.mp hsome
    refine ⟨⟨p, hp⟩, ?_⟩
    simp only [rodModulePlacements, hp]
    rfl

namespace Extractor

/-- A positive-z-side rod module at ring index 2. -/
def bmodPlus : BModule :=
  { ring := 2, side := 1, phi := 1, flipped := false, rho := 30, z := 50 }

/-- Its negative-z-side counterpart on the same ring. -/
def bmodMinus : BModule :=
  { ring := 2, side := -1, phi := 1, flipped := true, rho := 30, z := -50 }

end Extractor

open Extractor in
/-- Witness for C5 on a concrete two-module layer range in which the
counterpart exists. -/
theorem C5_partner_search_placements_witness :
    ((∀ q ∈ [bmodPlus, bmodMinus], ¬(q.ring = bmodPlus.ring ∧ q.side < 0)) →
      findPartnerModule [bmodPlus, bmodMinus] bmodPlus.ring false = none ∧
      (rodModulePlacements "tracker" "Rod1" "BModule2Layer1" 29
        bmodPlus [bmodMinus]).map PosInfo.copy = [1]) ∧
    ((∃ q ∈ [bmodPlus, bmodMinus], q.ring = bmodPlus.ring ∧ q.side < 0) →
      (∃ p, findPartnerModule [bmodPlus, bmodMinus] bmodPlus.ring false = some p) ∧
      (rodModulePlacements "tracker" "Rod1" "BModule2Layer1" 29
        bmodPlus [bmodMinus]).map PosInfo.copy = [1, 2]) :=
  C5_partner_search_placements "tracker" "Rod1" "BModule2Layer1" 29
    bmodPlus [bmodMinus] (by norm_num [bmodPlus])

namespace Extractor

/-- The records produced by one ACTIVE SURFACE block, plus the error log
(`std::cerr`) and the topology partselector entry (`mspec`). -/
structure ActiveSurfaceOut where
  errors : List String
  shapes : List ShapeInfo
  logics : List LogicalInfo
  positions : List PosInfo
  partselectors : List String

/-- The ACTIVE SURFACE block of `Extractor::analyseLayers`
(Extractor.cc:774-804; the mirror block of `Extractor::analyseDiscs` at
1430-1455 has the same structure): pick the shape name from the
module-type tag.  For a tag that is neither "ptPS" nor "pt2S" the code
only logs `"Unknown module type : <tag> ."` — `shape.name_tag` keeps its
previous value (the wafer record's name), and the shape, logical-part,
position and topology records are emitted regardless. -/
noncomputable def activeSurfaceRecords (nspace mname lowerupper prevNameTag : String)
    (moduleType : String) (area length sensorThickness : ℝ) : ActiveSurfaceOut :=
  let nameTag :=
    if moduleType = "ptPS" then
      mname ++ lowerupper ++ xml_base_ps ++ xml_base_pixel ++ xml_base_act
    else if moduleType = "pt2S" then
      mname ++ lowerupper ++ xml_base_2s ++ xml_base_act
    else prevNameTag
  let errors :=
    if moduleType = "ptPS" ∨ moduleType = "pt2S" then []
    else ["Unknown module type : " ++ moduleType ++ " ."]
  { errors := errors
    shapes := [{ name_tag := nameTag, dx := area / length / 2
                 dy := length / 2, dz := sensorThickness / 2 }]
    logics := [{ name_tag := nameTag, shape_tag := nspace ++ ":" ++ nameTag
                 material_tag := nspace ++ ":" ++ xml_sensor_silicon }]
    positions := [{ parent_tag := nspace ++ ":" ++ mname ++ lowerupper ++ xml_base_waf
                    child_tag := nspace ++ ":" ++ nameTag
                    rotref := "", copy := 1, dx := 0, dy := 0, dz := 0 }]
    partselectors := [nameTag] }

end Extractor

open Extractor in
/-- C6 (amended): for a module whose type tag is neither "ptPS" nor "pt2S",
the active-surface block logs an error carrying the offending tag and then
STILL emits the shape record — under the stale name tag left over from the
preceding wafer record — together with the logical-part, position and
topology records; the pass continues and later records for the module are
built.  (The claim's "the unrecognized shape record is not emitted" does
not hold.) -/
theorem C6_unknown_module_type_logged_but_emitted
    (nspace mname lowerupper prevNameTag moduleType : String)
    (area length sensorThickness : ℝ)
    (h1 : moduleType ≠ "ptPS") (h2 : moduleType ≠ "pt2S") :
    (activeSurfaceRecords nspace mname lowerupper prevNameTag moduleType
        area length sensorThickness).errors
      = ["Unknown module type : " ++ moduleType ++ " ."] ∧
    (activeSurfaceRecords nspace mname lowerupper prevNameTag moduleType
        area length sensorThickness).shapes
      = [{ name_tag := prevNameTag, dx := area / length / 2
           dy := length / 2, dz := sensorThickness / 2 }] ∧
    (activeSurfaceRecords nspace mname lowerupper prevNameTag moduleType
        area length sensorThickness).logics
      = [{ name_tag := prevNameTag, shape_tag := nspace ++ ":" ++ prevNameTag
           material_tag := nspace ++ ":" ++ xml_sensor_silicon }] ∧
    (activeSurfaceRecords nspace mname lowerupper prevNameTag moduleType
        area length sensorThickness).positions
      = [{ parent_tag := nspace ++ ":" ++ mname ++ lowerupper ++ xml_base_waf
           child_tag := nspace ++ ":" ++ prevNameTag
           rotref := "", copy := 1, dx := 0, dy := 0, dz := 0 }] ∧
    (activeSurfaceRecords nspace mname lowerupper prevNameTag moduleType
        area length sensorThickness).partselectors = [prevNameTag] := by
  have hor : ¬ (moduleType = "ptPS" ∨ moduleType = "pt2S") := by
    rintro (h | h) <;> [exact h1 h; exact h2 h]
  refine ⟨?_, ?_, ?_, ?_, ?_⟩ <;>
    simp [activeSurfaceRecords, if_neg h1, if_neg h2, if_neg hor]

open Extractor in
/-- Witness for C6 at the concrete unknown tag "unknown". -/
theorem C6_unknown_module_type_logged_but_emitted_witness :
    (activeSurfaceRecords "tracker" "BModule1Layer1" "Lower"
        "BModule1Layer1LowerWaf" "unknown" 4 2 1).errors
      = ["Unknown module type : " ++ "unknown" ++ " ."] ∧
    (activeSurfaceRecords "tracker" "BModule1Layer1" "Lower"
        "BModule1Layer1LowerWaf" "unknown" 4 2 1).shapes
      = [{ name_tag := "BModule1Layer1LowerWaf", dx := 4 / 2 / 2
           dy := 2 / 2, dz := 1 / 2 }] ∧
    (activeSurfaceRecords "tracker" "BModule1Layer1" "Lower"
        "BModule1Layer1LowerWaf" "unknown" 4 2 1).logics
      = [{ name_tag := "BModule1Layer1LowerWaf"
           shape_tag := "tracker" ++ ":" ++ "BModule1Layer1LowerWaf"
           material_tag := "tracker" ++ ":" ++ xml_sensor_silicon }] ∧
    (activeSurfaceRecords "tracker" "BModule1Layer1" "Lower"
        "BModule1Layer1LowerWaf" "unknown" 4 2 1).positions
      = [{ parent_tag := "tracker" ++ ":" ++ "BModule1Layer1" ++ "Lower" ++ xml_base_waf
           child_tag := "tracker" ++ ":" ++ "BModule1Layer1LowerWaf"
           rotref := "", copy := 1, dx := 0, dy := 0, dz := 0 }] ∧
    (activeSurfaceRecords "tracker" "BModule1Layer1" "Lower"
        "BModule1Layer1LowerWaf" "unknown" 4 2 1).partselectors
      = ["BModule1Layer1LowerWaf"] :=
  C6_unknown_module_type_logged_but_emitted "tracker" "BModule1Layer1"
    "Lower" "BModule1Layer1LowerWaf" "unknown" 4 2 1
    (by simp) (by simp)

open Extractor in
/-- C6 counterexample: with the unknown tag "unknown" the block emits one
shape record (with the stale wafer name), contradicting the claim that the
unrecognized shape record is not emitted. -/
theorem C6_unknown_type_shape_count :
    (activeSurfaceRecords "tracker" "BModule1Layer1" "Lower"
        "BModule1Layer1LowerWaf" "unknown" 4 2 1).shapes.length = 1 ∧
    ((activeSurfaceRecords "tracker" "BModule1Layer1" "Lower"
        "BModule1Layer1LowerWaf" "unknown" 4 2 1).shapes.map
          ShapeInfo.name_tag) = ["BModule1Layer1LowerWaf"] := by
  constructor <;> simp [activeSurfaceRecords]

namespace Extractor

/-- Modelled from the spec: further XML name fragments defined outside
`src/`. -/
def xml_base_serfcomp : String := "serfcomp"

def xml_base_serf : String := "serf"

def xml_pixbarident : String := "pixbar"

def xml_2OTbar : String := "Tracker2OTbar"

/-- An inactive service/support element (`InactiveElement`): inner radius,
radial width, z-offset, z-length, category tag, total mass
(`MaterialProperties::getTotalMass`, outside `src/`) and the local
elemental-mass mapping. -/
structure InactiveElement where
  zOffset : ℝ
  zLength : ℝ
  innerRadius : ℝ
  rWidth : ℝ
  category : ℤ
  totalMass : ℝ
  localMasses : List (String × ℝ)

/-- The C-style `(int)` cast on a double: truncation toward zero. -/
noncomputable def cppInt (x : ℝ) : ℤ := if 0 ≤ x then ⌊x⌋ else ⌈x⌉

/-- `Extractor::compositeDensity(InactiveElement&)` (Extractor.cc:2209-2214). -/
noncomputable def compositeDensityIE (ie : InactiveElement) : ℝ :=
  let d := ie.rWidth + ie.innerRadius
  1000 * ie.totalMass /
    (Real.pi * ie.zLength * (d * d - ie.innerRadius * ie.innerRadius))

/-- The records appended for one barrel/endcap service element, plus the
warnings (`logWARNING`). -/
structure ServiceRecords where
  composites : List Composite
  shapes : List ShapeInfo
  logics : List LogicalInfo
  positions : List PosInfo
  warnings : List String

def emptyServiceRecords : ServiceRecords := ⟨[], [], [], [], []⟩

noncomputable def appendSR (a b : ServiceRecords) : ServiceRecords :=
  ⟨a.composites ++ b.composites, a.shapes ++ b.shapes, a.logics ++ b.logics,
   a.positions ++ b.positions, a.warnings ++ b.warnings⟩

/-- One iteration of `Extractor::analyseBarrelServices`
(Extractor.cc:1714-1762), threading `previousInnerRadius`.  An element
whose `(int)` z-offset is 0 is skipped when its `(int)` inner radius
equals `previousInnerRadius`, and otherwise overwrites
`previousInnerRadius` (1716-1719).  A surviving element with
`zOffset + zLength > 0` and a non-empty local-mass list emits one
composite, one tube shape, one logical part and a symmetric pair of
placements (copy 1, and copy 2 mirrored in z under the flip rotation,
1729-1753); with an empty local-mass list it emits only a warning
(1755-1759).  The `createComposite` call site uses the declaration's
default `nosensors` argument (header outside `src/`), which excludes
nothing. -/
noncomputable def barrelServiceStep (nspace : String) (prev : ℤ)
    (e : InactiveElement) : ℤ × ServiceRecords :=
  if cppInt e.zOffset = 0 ∧ prev = cppInt e.innerRadius then
    (prev, emptyServiceRecords)
  else
    let prev' := if cppInt e.zOffset = 0 then cppInt e.innerRadius else prev
    let zMid := cppInt |e.zOffset + e.zLength / 2|
    let matname := xml_base_serfcomp ++ toString e.category ++ "R" ++
      toString (cppInt e.innerRadius) ++ "Z" ++ toString zMid
    let shapename := xml_base_serf ++ "R" ++ toString (cppInt e.innerRadius) ++
      "Z" ++ toString zMid
    if 0 < e.zOffset + e.zLength then
      if e.localMasses ≠ [] then
        (prev',
         { composites := [createComposite matname (compositeDensityIE e)
             e.localMasses false]
           shapes := [{ name_tag := shapename, dz := e.zLength / 2
                        rmin := e.innerRadius
                        rmax := e.innerRadius + e.rWidth }]
           logics := [{ name_tag := shapename
                        shape_tag := nspace ++ ":" ++ shapename
                        material_tag := nspace ++ ":" ++ matname }]
           positions :=
             [{ parent_tag := xml_pixbarident ++ ":" ++ xml_2OTbar
                child_tag := nspace ++ ":" ++ shapename
                rotref := "", copy := 1, dx := 0, dy := 0
                dz := e.zOffset + e.zLength / 2 },
              { parent_tag := xml_pixbarident ++ ":" ++ xml_2OTbar
                child_tag := nspace ++ ":" ++ shapename
                rotref := nspace ++ ":" ++ xml_flip_mod_rot, copy := 2
                dx := 0, dy := 0
                dz := -(e.zOffset + e.zLength / 2) }]
           warnings := [] })
      else
        (prev', { emptyServiceRecords with
          warnings := [shapename ++ " is not exported to XML because it is empty."] })
    else (prev', emptyServiceRecords)

/-- `Extractor::analyseBarrelServices` (Extractor.cc:1690-1763):
fold the per-element step over the barrel service list, starting from
`previousInnerRadius = -1`. -/
noncomputable def analyseBarrelServices (nspace : String)
    (bs : List InactiveElement) : ServiceRecords :=
  (bs.foldl (fun st e =>
      let r := barrelServiceStep nspace st.1 e
      (r.1, appendSR st.2 r.2)) ((-1 : ℤ), emptyServiceRecords)).2

theorem barrelServiceStep_fst (nspace : String) (prev : ℤ)
    (e : InactiveElement) (h0 : cppInt e.zOffset = 0) :
    (barrelServiceStep nspace prev e).1 = cppInt e.innerRadius := by
  by_cases hskip : cppInt e.zOffset = 0 ∧ prev = cppInt e.innerRadius
  · simp only [barrelServiceStep, if_pos hskip]
    exact hskip.2
  · simp only [barrelServiceStep, if_neg hskip, if_pos h0]
    split_ifs <;> rfl

end Extractor

open Extractor in
/-- C8 (amended): the barrel-services de-duplication is a last-seen rule,
not once-per-distinct-radius: after processing a z-offset-zero element
(truncated to int), any immediately following element with truncated
z-offset 0 and the same truncated inner radius produces no records — from
any starting state; an equal radius seen earlier but separated by a
different pass-through is emitted again (see the counterexample). -/
theorem C8_consecutive_passthrough_deduplicated (nspace : String)
    (prev : ℤ) (e1 e2 : InactiveElement)
    (h1 : cppInt e1.zOffset = 0) (h2 : cppInt e2.zOffset = 0)
    (hr : cppInt e1.innerRadius = cppInt e2.innerRadius) :
    (barrelServiceStep nspace (barrelServiceStep nspace prev e1).1 e2).2
      = emptyServiceRecords := by
  have hfst := barrelServiceStep_fst nspace prev e1 h1
  rw [hfst]
  simp only [barrelServiceStep, if_pos (And.intro h2 hr)]

namespace Extractor

/-- A z-offset-zero pass-through at inner radius 5 carrying copper. -/
noncomputable def svcR5 : InactiveElement :=
  { zOffset := 0, zLength := 2, innerRadius := 5, rWidth := 1
    category := 1, totalMass := 1, localMasses := [("Cu", 1)] }

/-- A z-offset-zero pass-through at inner radius 8 carrying copper. -/
noncomputable def svcR8 : InactiveElement :=
  { zOffset := 0, zLength := 2, innerRadius := 8, rWidth := 1
    category := 1, totalMass := 1, localMasses := [("Cu", 1)] }

end Extractor

open Extractor in
/-- Witness for C8 on two concrete consecutive radius-5 pass-throughs. -/
theorem C8_consecutive_passthrough_deduplicated_witness :
    (barrelServiceStep "tracker"
        (barrelServiceStep "tracker" (-1) svcR5).1 svcR5).2
      = emptyServiceRecords :=
  C8_consecutive_passthrough_deduplicated "tracker" (-1) svcR5 svcR5
    (by norm_num [cppInt, svcR5]) (by norm_num [cppInt, svcR5]) rfl

open Extractor in
/-- C8 counterexample: for the barrel service list `[radius 5, radius 8,
radius 5]`, all z-offset-zero pass-throughs with local mass, the third
element's inner radius 5 has already been emitted, yet the run emits three
composites (and record sets), not two: the de-duplication only remembers
the immediately preceding pass-through's radius. -/
theorem C8_distinct_radius_counterexample :
    (analyseBarrelServices "tracker" [svcR5, svcR8, svcR5]).composites.length
      = 3 := by
  norm_num [analyseBarrelServices, List.foldl, barrelServiceStep, appendSR,
    emptyServiceRecords, cppInt, svcR5, svcR8]

namespace Extractor

/-- A replication-algorithm call record (`AlgoInfo`). -/
structure AlgoInfo where
  name : String
  parent : String
  parameters : List String

/-- A radiation/interaction-length summary record (`RILengthInfo`). -/
structure RILengthInfo where
  barrel : Bool
  index : ℤ
  rlength : ℝ
  ilength : ℝ

/-- Everything the body of the disc loop of `Extractor::analyseDiscs`
appends to the output collections for one disc (Extractor.cc:1231-1668):
composite materials, shapes, logical parts, positions,
replication-algorithm calls, topology partselector entries (for
`dspec`/`rspec`/`sspec`/`mspec`), and the per-disc
radiation/interaction-length summary. -/
structure DiscOutputs where
  composites : List Composite
  shapes : List ShapeInfo
  logics : List LogicalInfo
  positions : List PosInfo
  algos : List AlgoInfo
  partselectors : List String
  lrilength : List RILengthInfo

def emptyDiscOutputs : DiscOutputs := ⟨[], [], [], [], [], [], []⟩

noncomputable def appendDO (a b : DiscOutputs) : DiscOutputs :=
  ⟨a.composites ++ b.composites, a.shapes ++ b.shapes, a.logics ++ b.logics,
   a.positions ++ b.positions, a.algos ++ b.algos,
   a.partselectors ++ b.partselectors, a.lrilength ++ b.lrilength⟩

/-- One iteration of the disc loop of `Extractor::analyseDiscs`
(Extractor.cc:1228-1231 and 1669-1671): the ENTIRE body — every record
emission, lines 1231-1668 — sits inside `if (minZ() > 0)`, and the disc
ordinal `layer` is incremented on every iteration, also past skipped
discs.  The body is the function `body` of the disc and of the current
ordinal; its internals are analysed separately and do not affect this
structure. -/
noncomputable def analyseDiscsStep {D : Type} (minZ : D → ℝ)
    (body : D → ℤ → DiscOutputs) (st : ℤ × DiscOutputs) (d : D) :
    ℤ × DiscOutputs :=
  (st.1 + 1, if 0 < minZ d then appendDO st.2 (body d st.1) else st.2)

/-- The disc loop of `Extractor::analyseDiscs`, starting at ordinal 1. -/
noncomputable def analyseDiscsRun {D : Type} (minZ : D → ℝ)
    (body : D → ℤ → DiscOutputs) (discs : List D) : ℤ × DiscOutputs :=
  discs.foldl (analyseDiscsStep minZ body) (1, emptyDiscOutputs)

theorem analyseDiscsRun_counter {D : Type} (minZ : D → ℝ)
    (body : D → ℤ → DiscOutputs) (discs : List D) (st : ℤ × DiscOutputs) :
    (discs.foldl (analyseDiscsStep minZ body) st).1 = st.1 + discs.length := by
  induction discs generalizing st with
  | nil => simp
  | cons d t ih =>
      rw [List.foldl_cons, ih]
      simp only [analyseDiscsStep, List.length_cons]
      push_cast
      ring

end Extractor

open Extractor in
/-- C10: a disc whose minimum z is not strictly positive contributes no
output records of any kind — the step leaves every collection unchanged —
while the disc ordinal counter still advances; a disc with positive
minimum z appends its body's records; and over any disc list the counter
ends at 1 + (number of discs), so later discs keep their ordinals past
skipped ones. -/
theorem C10_nonpositive_disc_emits_nothing {D : Type} (minZ : D → ℝ)
    (body : D → ℤ → DiscOutputs) (st : ℤ × DiscOutputs) (d : D)
    (h : minZ d ≤ 0) :
    analyseDiscsStep minZ body st d = (st.1 + 1, st.2) ∧
    (∀ d' : D, 0 < minZ d' →
      analyseDiscsStep minZ body st d' = (st.1 + 1, appendDO st.2 (body d' st.1))) ∧
    (∀ discs : List D,
      (analyseDiscsRun minZ body discs).1 = 1 + discs.length) := by
  refine ⟨?_, ?_, ?_⟩
  · simp [analyseDiscsStep, not_lt.mpr h]
  · intro d' h'
    simp [analyseDiscsStep, h']
  · intro discs
    exact analyseDiscsRun_counter minZ body discs (1, emptyDiscOutputs)

open Extractor in
/-- Witness for C10 with discs represented by their minimum z: a disc at
minZ = -2 is skipped while the counter advances. -/
theorem C10_nonpositive_disc_emits_nothing_witness :
    analyseDiscsStep (fun z : ℝ => z) (fun _ _ => emptyDiscOutputs)
        (1, emptyDiscOutputs) (-2) = (1 + 1, emptyDiscOutputs) ∧
    (∀ d' : ℝ, 0 < d' →
      analyseDiscsStep (fun z : ℝ => z) (fun _ _ => emptyDiscOutputs)
        (1, emptyDiscOutputs) d'
        = (1 + 1, appendDO emptyDiscOutputs emptyDiscOutputs)) ∧
    (∀ discs : List ℝ,
      (analyseDiscsRun (fun z : ℝ => z) (fun _ _ => emptyDiscOutputs) discs).1
        = 1 + discs.length) :=
  C10_nonpositive_disc_emits_nothing (fun z : ℝ => z)
    (fun _ _ => emptyDiscOutputs) (1, emptyDiscOutputs) (-2) (by norm_num)

namespace Extractor

/-- A rotation record (`Rotation`): three axis-pairs of angles in
degrees. -/
structure Rotation where
  name : String
  thetax : ℝ
  phix : ℝ
  thetay : ℝ
  phiy : ℝ
  thetaz : ℝ
  phiz : ℝ

/-- A boolean shape-operation record (`ShapeOperationInfo`). -/
structure ShapeOperationInfo where
  name_tag : String
  rSolid1 : String
  rSolid2 : String

/-- A topology-selector record (`SpecParInfo`), restricted to the fields
the embedding uses. -/
structure SpecParInfo where
  name : String
  parameterFirst : String
  parameterSecond : String
  partselectors : List String

/-- The output bundle of `Extractor::analyse` (`CMSSWBundle`): the ten
collections cleared and rebuilt by every full analysis
(Extractor.cc:36-59). -/
structure CMSSWBundle where
  elements : List Element
  composites : List Composite
  logic : List LogicalInfo
  shapes : List ShapeInfo
  shapeOps : List ShapeOperationInfo
  positions : List PosInfo
  algos : List AlgoInfo
  rots : List (String × Rotation)
  specs : List SpecParInfo
  lrilength : List RILengthInfo

/-- `std::map<std::string,Rotation>::insert`: a keyed insert that never
overwrites an existing key.  (The C++ map iterates in key order, a
deterministic function of the inserted pairs; the embedding keeps
first-insertion order, which no claim inspects.) -/
def rotInsert (m : List (String × Rotation)) (kv : String × Rotation) :
    List (String × Rotation) :=
  if m.any fun p => p.1 = kv.1 then m else m ++ [kv]

/-- The rotation placing an unflipped module in a rod
(Extractor.cc:73-81). -/
def rotUnflipped : Rotation :=
  { name := xml_places_unflipped_mod_in_rod
    thetax := 90, phix := 90, thetay := 0, phiy := 0, thetaz := 90, phiz := 0 }

/-- The rotation placing a flipped module in a rod (Extractor.cc:84-91). -/
def rotFlipped : Rotation :=
  { name := xml_places_flipped_mod_in_rod
    thetax := 90, phix := 270, thetay := 0, phiy := 0, thetaz := 90, phiz := 180 }

/-- The 180-degree flip rotation (Extractor.cc:94-101). -/
def rotFlip : Rotation :=
  { name := xml_flip_mod_rot
    thetax := 90, phix := 180, thetay := 90, phiy := 90, thetaz := 180, phiz := 0 }

/-- What one analysis pass appends to each collection: every pass of
`Extractor::analyse` (Extractor.cc:161-177) receives the output
collections by reference and only appends records computed from the
read-only inputs (tracker, material table, inactive surfaces); rotation
entries go through the keyed `insert`. -/
structure PassOutputs where
  elements : List Element
  composites : List Composite
  logic : List LogicalInfo
  shapes : List ShapeInfo
  shapeOps : List ShapeOperationInfo
  positions : List PosInfo
  algos : List AlgoInfo
  rotInserts : List (String × Rotation)
  specs : List SpecParInfo
  lrilength : List RILengthInfo

/-- Append one pass's outputs onto the bundle. -/
def applyPass (b : CMSSWBundle) (o : PassOutputs) : CMSSWBundle :=
  { elements := b.elements ++ o.elements
    composites := b.composites ++ o.composites
    logic := b.logic ++ o.logic
    shapes := b.shapes ++ o.shapes
    shapeOps := b.shapeOps ++ o.shapeOps
    positions := b.positions ++ o.positions
    algos := b.algos ++ o.algos
    rots := o.rotInserts.foldl rotInsert b.rots
    specs := b.specs ++ o.specs
    lrilength := b.lrilength ++ o.lrilength }

/-- `Extractor::analyse` (Extractor.cc:26-180): clear the ten output
collections (50-59) — the prior contents of `d` are discarded — seed the
three fixed rotations (73-101), push the barrel/endcap container polycone
shapes unless `wt` (143-159), then run the passes in order (161-177),
each appending records computed from the read-only input alone.  The pass
bodies enter as the functions of the input that they are; their internals
are analysed separately. -/
noncomputable def analyse {T : Type} (wt : Bool)
    (containerShapes : T → List ShapeInfo) (passes : List (T → PassOutputs))
    (input : T) (d : CMSSWBundle) : CMSSWBundle :=
  let cleared : CMSSWBundle :=
    { elements := [], composites := [], logic := [], shapes := []
      shapeOps := [], positions := [], algos := [], rots := []
      specs := [], lrilength := [] }
  let seeded := { cleared with
    rots := rotInsert (rotInsert (rotInsert []
      (xml_places_unflipped_mod_in_rod, rotUnflipped))
      (xml_places_flipped_mod_in_rod, rotFlipped))
      (xml_flip_mod_rot, rotFlip) }
  let withContainers :=
    if wt then seeded
    else { seeded with shapes := seeded.shapes ++ containerShapes input }
  passes.foldl (fun b pass => applyPass b (pass input)) withContainers

end Extractor

open Extractor in
/-- C1: the analysis output depends only on the input — any two runs on
the same unmodified input yield identical output collections (same
records, same order), whatever each run found in the bundle beforehand —
and in particular running the full analysis twice in a row reproduces the
first run's collections exactly.  This holds because `analyse` clears
every collection before rebuilding it and every pass appends records
computed from the read-only input alone. -/
theorem C1_analyse_idempotent_deterministic {T : Type} (wt : Bool)
    (containerShapes : T → List ShapeInfo) (passes : List (T → PassOutputs))
    (input : T) (d d' : CMSSWBundle) :
    analyse wt containerShapes passes input d
      = analyse wt containerShapes passes input d' ∧
    analyse wt containerShapes passes input
        (analyse wt containerShapes passes input d)
      = analyse wt containerShapes passes input d :=
  ⟨rfl, rfl⟩
